import Mathlib

/-!
Shallow embedding of the Price Discovery & Caching Subsystem
(src/services/price-discovery) of the Mandi-management repository.

Numbers are modelled as exact rationals (JS numbers idealised), timestamps
as integer milliseconds since the epoch (JS Date.getTime()).  Asynchronous
calls to collaborators (the external market-data source, the Redis cache,
the AI estimator) are modelled by passing their results in explicitly;
fallible code returns Except.
-/

namespace Mandi

/-- JS Math.round: round half towards positive infinity, Math.round x = ⌊x + 1/2⌋. -/
def jsRound (q : ℚ) : ℤ := ⌊q + 1 / 2⌋

/-- Math.round(q * 100) / 100 — rounding to two decimal places as used throughout
price-formatting.ts and price-discovery-service.ts. -/
def round2 (q : ℚ) : ℚ := (jsRound (q * 100) : ℚ) / 100

/-- ASCII lower-casing of one character (JS toLowerCase restricted to the
ASCII range, which covers all identifiers this subsystem handles). -/
def asciiLower (c : Char) : Char :=
  if 65 ≤ c.toNat ∧ c.toNat ≤ 90 then Char.ofNat (c.toNat + 32) else c

/-- JS String.toLowerCase (ASCII range), by structural recursion so that
concrete strings evaluate. -/
def strToLower (s : String) : String := String.mk (s.toList.map asciiLower)

/-- JS String.trim: strip whitespace from both ends. -/
def strTrim (s : String) : String :=
  String.mk
    (((s.toList.dropWhile Char.isWhitespace).reverse.dropWhile Char.isWhitespace).reverse)

/-- The source tag of a PriceInfo (src/types: 'official' | 'estimated'). -/
inductive PriceSource
  | official
  | estimated
deriving DecidableEq

/-- One current-price record from the market-data source (src/types MandiPrice). -/
structure MandiPrice where
  product : String
  location : String
  price : ℚ
  date : ℤ
  source : String
  verified : Bool
deriving DecidableEq

/-- One historical observation (src/types HistoricalPrice). -/
structure HistoricalPrice where
  date : ℤ
  price : ℚ
  volume : ℚ
  location : String
deriving DecidableEq

/-- One point of a PriceHistory series (src/types PricePoint). -/
structure PricePoint where
  date : ℤ
  price : ℚ
  volume : ℚ
  source : String
deriving DecidableEq

/-- Aggregated price view returned to callers (src/types PriceInfo). -/
structure PriceInfo where
  current : ℚ
  minimum : ℚ
  maximum : ℚ
  average : ℚ
  confidence : ℚ
  source : PriceSource
  lastUpdated : ℤ
deriving DecidableEq

/-- PriceInfo extended with estimation metadata (src/types EstimatedPrice). -/
structure EstimatedPrice where
  current : ℚ
  minimum : ℚ
  maximum : ℚ
  average : ℚ
  confidence : ℚ
  source : PriceSource
  lastUpdated : ℤ
  estimationMethod : String
  historicalBasis : List PricePoint
deriving DecidableEq

/-- The PriceInfo part of an EstimatedPrice (in TS, EstimatedPrice extends PriceInfo). -/
def EstimatedPrice.toPriceInfo (e : EstimatedPrice) : PriceInfo :=
  { current := e.current, minimum := e.minimum, maximum := e.maximum,
    average := e.average, confidence := e.confidence, source := e.source,
    lastUpdated := e.lastUpdated }

/-- A product lookup request (src/types ProductQuery). -/
structure ProductQuery where
  name : String
  category : String
  location : String
  quantity : ℚ
  unit : String
deriving DecidableEq

/-- Trend classification of a price series. -/
inductive Trend
  | rising
  | falling
  | stable
deriving DecidableEq

/-- price-validation.ts validateProductQuery: the query is valid iff no check
pushes an error message.  Each conjunct mirrors one check, in source order
(required non-empty strings, positive quantity, length caps, quantity range;
the last check is guarded by JS truthiness of quantity). -/
def validateProductQuery (q : ProductQuery) : Bool :=
  decide ((strTrim q.name).length ≠ 0) &&
  decide ((strTrim q.category).length ≠ 0) &&
  decide ((strTrim q.location).length ≠ 0) &&
  decide ((strTrim q.unit).length ≠ 0) &&
  decide (0 < q.quantity) &&
  decide (q.name.length ≤ 100) &&
  decide (q.category.length ≤ 50) &&
  decide (q.location.length ≤ 100) &&
  decide ((q.unit).length ≤ 20) &&
  decide (¬(q.quantity ≠ 0 ∧ (1000000 < q.quantity ∨ q.quantity < 1 / 1000)))

/-- price-validation.ts validatePriceData: valid iff no check pushes an error.
Conjuncts in source order: non-negative fields, confidence in [0,1]
(the source-tag and Date-validity checks always hold for our types),
minimum ≤ maximum, current and average within [minimum, maximum],
sanity ceiling 100000 on every price field, and lastUpdated not older
than 24 hours before `now`. -/
def validatePriceData (now : ℤ) (p : PriceInfo) : Bool :=
  decide (0 ≤ p.current) &&
  decide (0 ≤ p.minimum) &&
  decide (0 ≤ p.maximum) &&
  decide (0 ≤ p.average) &&
  decide (0 ≤ p.confidence) && decide (p.confidence ≤ 1) &&
  decide (p.minimum ≤ p.maximum) &&
  decide (p.minimum ≤ p.current) && decide (p.current ≤ p.maximum) &&
  decide (p.minimum ≤ p.average) && decide (p.average ≤ p.maximum) &&
  decide (p.current ≤ 100000) && decide (p.minimum ≤ 100000) &&
  decide (p.maximum ≤ 100000) && decide (p.average ≤ 100000) &&
  decide (¬(p.lastUpdated < now - 24 * 60 * 60 * 1000))

/-- price-formatting.ts formatPrice: reject negative input, round to 2 decimals
(the NaN check has no counterpart over ℚ). -/
def formatPrice (price : ℚ) : Except String ℚ :=
  if price < 0 then Except.error ("Price cannot be negative")
  else Except.ok (round2 price)

/-- price-formatting.ts formatConfidence: reject input outside [0,1], round to
2 decimals. -/
def formatConfidence (confidence : ℚ) : Except String ℚ :=
  if confidence < 0 ∨ 1 < confidence then Except.error ("Confidence must be between 0 and 1")
  else Except.ok (round2 confidence)

/-- price-formatting.ts formatPriceInfo: format every price field and the
confidence, leaving source and lastUpdated unchanged. -/
def formatPriceInfo (p : PriceInfo) : Except String PriceInfo := do
  let cur ← formatPrice p.current
  let mn ← formatPrice p.minimum
  let mx ← formatPrice p.maximum
  let avg ← formatPrice p.average
  let conf ← formatConfidence p.confidence
  pure { p with current := cur, minimum := mn, maximum := mx, average := avg,
                confidence := conf }

/-! ## Source Client (market-data-adapter.ts, GovernmentMarketDataAdapter) -/

/-- Outcome of a call to the external provider: either a normalised record list
or a transport/provider failure (after retries are exhausted). -/
inductive SourceResponse (α : Type)
  | ok (records : List α)
  | failed
deriving DecidableEq

/-- GovernmentMarketDataAdapter.validateDataFreshness: fresh iff the record is
less than 24 hours old, verified, and its price is positive. -/
def govValidateDataFreshness (now : ℤ) (d : MandiPrice) : Bool :=
  decide (now - d.date < 24 * 60 * 60 * 1000) && d.verified && decide (0 < d.price)

/-- GovernmentMarketDataAdapter.fetchMandiPrices: on success, records are
normalised (location overwritten with the request location, tagged
government_api / verified) and non-positive prices dropped; every failure is
caught and becomes the empty list — the method never throws. -/
def govFetchMandiPrices (location : String) (resp : SourceResponse MandiPrice) :
    List MandiPrice :=
  match resp with
  | SourceResponse.ok records =>
      (records.map (fun r =>
        { r with location := location, source := "government_api", verified := true })).filter
        (fun p => decide (0 < p.price))
  | SourceResponse.failed => []

/-- GovernmentMarketDataAdapter.getHistoricalData: same normalisation and
catch-all; failures become the empty list. -/
def govGetHistoricalData (location : String) (resp : SourceResponse HistoricalPrice) :
    List HistoricalPrice :=
  match resp with
  | SourceResponse.ok records =>
      (records.map (fun r => { r with location := location })).filter
        (fun p => decide (0 < p.price))
  | SourceResponse.failed => []

/-! ## Cache Store (market-data-cache.ts, MarketDataCache)

The Redis store is modelled as in-memory association lists per data kind,
plus the connection flag.  When disconnected every get is a miss and every
set a no-op (each cache method returns early after a warning).  TTL expiry
is Redis behaviour: an expired entry is simply absent from the list. -/

structure CacheState where
  connected : Bool
  mandi : List (String × List MandiPrice)
  hist : List (String × List HistoricalPrice)
deriving DecidableEq

/-- Collapse each run of whitespace to a single hyphen — the effect of
replace(/\s+/g, a hyphen) in the key generators. -/
def collapseWsAux : Bool → List Char → List Char
  | _, [] => []
  | prevWs, c :: cs =>
    if c.isWhitespace then
      if prevWs then collapseWsAux true cs
      else Char.ofNat 45 :: collapseWsAux true cs
    else c :: collapseWsAux false cs

/-- Lower-case and hyphenate an identifier, as both key generators do. -/
def normalizeIdent (s : String) : String :=
  String.mk (collapseWsAux false (strToLower s).toList)

/-- MarketDataCache.generateMandiPricesKey (the date is already rendered as its
YYYY-MM-DD string). -/
def generateMandiPricesKey (location dateStr : String) : String :=
  "mandi:prices:" ++ normalizeIdent location ++ ":" ++ dateStr

/-- MarketDataCache.generateHistoricalDataKey. -/
def generateHistoricalDataKey (product location : String) (days : ℕ) : String :=
  "mandi:historical:" ++ normalizeIdent product ++ ":" ++ normalizeIdent location ++
    ":" ++ toString days

/-- MarketDataCache.getCachedMandiPrices: miss (null) when disconnected or absent. -/
def cacheGetMandi (st : CacheState) (k : String) : Option (List MandiPrice) :=
  if st.connected then (st.mandi.find? (fun e => e.1 = k)).map (fun e => e.2) else none

/-- MarketDataCache.cacheMandiPrices: overwrite the entry; no-op when disconnected. -/
def cacheSetMandi (st : CacheState) (k : String) (v : List MandiPrice) : CacheState :=
  if st.connected then { st with mandi := (k, v) :: st.mandi } else st

/-- MarketDataCache.getCachedHistoricalData. -/
def cacheGetHist (st : CacheState) (k : String) : Option (List HistoricalPrice) :=
  if st.connected then (st.hist.find? (fun e => e.1 = k)).map (fun e => e.2) else none

/-- MarketDataCache.cacheHistoricalData. -/
def cacheSetHist (st : CacheState) (k : String) (v : List HistoricalPrice) : CacheState :=
  if st.connected then { st with hist := (k, v) :: st.hist } else st

/-! ## Fallback Orchestrator (market-data-cache.ts, CachedMarketDataAdapter) -/

/-- CachedMarketDataAdapter.validateDataFreshness: the basic adapter check,
then a time-of-day dependent age bound — 6 hours when the current local hour
is between 6 and 18 (inclusive, per `currentHour >= 6 && currentHour <= 18`),
12 hours otherwise.  `hour` is the local hour taken from `now` by
Date.getHours(). -/
def cachedValidateDataFreshness (now : ℤ) (hour : ℕ) (d : MandiPrice) : Bool :=
  if govValidateDataFreshness now d = false then false
  else
    let maxAgeMs : ℤ := if 6 ≤ hour ∧ hour ≤ 18 then 6 * 60 * 60 * 1000
                        else 12 * 60 * 60 * 1000
    decide (now - d.date < maxAgeMs)

/-- The fetch-from-API tail of CachedMarketDataAdapter.fetchMandiPrices:
fetch, write through only when the result is non-empty, return the result. -/
def mandiFetchPath (st : CacheState) (key location : String)
    (resp : SourceResponse MandiPrice) : List MandiPrice × CacheState :=
  let apiData := govFetchMandiPrices location resp
  if 0 < apiData.length then (apiData, cacheSetMandi st key apiData)
  else (apiData, st)

/-- CachedMarketDataAdapter.fetchMandiPrices: cache lookup, freshness filter,
API fetch on stale/miss, write-through only for a non-empty result.  The
catch block (stale-cache fallback) is not modelled because no operation in
the try can throw: the cache methods and the government adapter each catch
their own errors and return null / the empty list. -/
def cachedFetchMandiPrices (now : ℤ) (hour : ℕ) (st : CacheState)
    (location dateStr : String) (resp : SourceResponse MandiPrice) :
    List MandiPrice × CacheState :=
  let key := generateMandiPricesKey location dateStr
  match cacheGetMandi st key with
  | some cached =>
    if 0 < cached.length then
      let freshData := cached.filter (fun p => cachedValidateDataFreshness now hour p)
      if 0 < freshData.length then (freshData, st)
      else mandiFetchPath st key location resp
    else mandiFetchPath st key location resp
  | none => mandiFetchPath st key location resp

/-- The fetch-from-API tail of CachedMarketDataAdapter.getHistoricalData. -/
def histFetchPath (st : CacheState) (key location : String)
    (resp : SourceResponse HistoricalPrice) : List HistoricalPrice × CacheState :=
  let apiData := govGetHistoricalData location resp
  if 0 < apiData.length then (apiData, cacheSetHist st key apiData)
  else (apiData, st)

/-- CachedMarketDataAdapter.getHistoricalData: any non-empty cache hit is
returned as is; API fetch on miss; write-through only for a non-empty
result.  As above, nothing in the try can throw, so the catch is dead. -/
def cachedGetHistoricalData (st : CacheState) (product location : String)
    (days : ℕ) (resp : SourceResponse HistoricalPrice) :
    List HistoricalPrice × CacheState :=
  let key := generateHistoricalDataKey product location days
  match cacheGetHist st key with
  | some cached =>
    if 0 < cached.length then (cached, st)
    else histFetchPath st key location resp
  | none => histFetchPath st key location resp

/-! ## Price Discovery Engine (price-discovery-service.ts, PriceDiscoveryService)

The AI estimator is a pluggable collaborator; each call site is modelled by
passing the call outcome (an Except) in explicitly. -/

/-- Arithmetic mean of a list of prices, sum / length as in the source reduces. -/
def meanQ (l : List ℚ) : ℚ := l.sum / (l.length : ℚ)

/-- Math.min over a non-empty spread (we never apply it to the empty list). -/
def listMin : List ℚ → ℚ
  | [] => 0
  | h :: t => t.foldl min h

/-- Math.max over a non-empty spread. -/
def listMax : List ℚ → ℚ
  | [] => 0
  | h :: t => t.foldl max h

/-- PriceDiscoveryService.CACHE_TTL_MS: 5 minutes for the in-process price cache. -/
def CACHE_TTL_MS : ℤ := 5 * 60 * 1000

/-- The in-process short-term cache: key, cached PriceInfo and store timestamp.
Map.set is modelled by prepending, Map.get by the first match. -/
abbrev PriceCache := List (String × PriceInfo × ℤ)

/-- Map.get on the short-term cache. -/
def cacheFind (c : PriceCache) (k : String) : Option (PriceInfo × ℤ) :=
  (List.find? (fun e => e.1 = k) c).map (fun e => e.2)

/-- PriceDiscoveryService.generateCacheKey. -/
def generateCacheKey (q : ProductQuery) : String :=
  q.name ++ "-" ++ q.category ++ "-" ++ q.location

/-- Character-list test: the first list starts the second (used to express JS
String.includes structurally). -/
def strIncludesAux : List Char → List Char → Bool
  | [], _ => true
  | _ :: _, [] => false
  | c :: cs, d :: ds => c = d && strIncludesAux cs ds

/-- The needle occurs at some position of the haystack character list. -/
def strIncludesGo (needle : List Char) : List Char → Bool
  | [] => strIncludesAux needle []
  | d :: ds => strIncludesAux needle (d :: ds) || strIncludesGo needle ds

/-- JS String.includes on the underlying character lists. -/
def strIncludes (hay needle : String) : Bool :=
  strIncludesGo needle.toList hay.toList

/-- PriceDiscoveryService.isProductMatch: case-insensitive substring
containment between the mandi product name and the query name/category. -/
def isProductMatch (mandiProduct queryName queryCategory : String) : Bool :=
  let normalizedMandi := strTrim (strToLower mandiProduct)
  let normalizedName := strTrim (strToLower queryName)
  let normalizedCategory := strTrim (strToLower queryCategory)
  strIncludes normalizedMandi normalizedName ||
  strIncludes normalizedMandi normalizedCategory ||
  strIncludes normalizedName normalizedMandi

/-- PriceDiscoveryService.convertMandiPriceToPriceInfo: min/max synthesised as
±5%, confidence 0.95 when verified else 0.75, lastUpdated from the record. -/
def convertMandiPriceToPriceInfo (m : MandiPrice) (src : PriceSource) : PriceInfo :=
  { current := m.price,
    minimum := m.price * 0.95,
    maximum := m.price * 1.05,
    average := m.price,
    confidence := if m.verified then 0.95 else 0.75,
    source := src,
    lastUpdated := m.date }

/-- PriceDiscoveryService.calculateTrend over the price points: compare the
mean of the last 7 points with the mean of the first 7, ±5% thresholds. -/
def calculateTrend (pricePoints : List PricePoint) : Trend :=
  if pricePoints.length < 2 then Trend.stable
  else
    let recent := pricePoints.drop (pricePoints.length - 7)
    let older := pricePoints.take 7
    let recentAvg := meanQ (recent.map (fun p => p.price))
    let olderAvg := meanQ (older.map (fun p => p.price))
    let change := (recentAvg - olderAvg) / olderAvg
    if 0.05 < change then Trend.rising
    else if change < -0.05 then Trend.falling
    else Trend.stable

/-- PriceDiscoveryService.calculateTrendMultiplier: second-half mean over
first-half mean of the recent prices; 1 when fewer than two points. -/
def calculateTrendMultiplier (recentPrices : List ℚ) : ℚ :=
  if recentPrices.length < 2 then 1
  else
    let firstHalf := recentPrices.take (recentPrices.length / 2)
    let secondHalf := recentPrices.drop (recentPrices.length / 2)
    meanQ secondHalf / meanQ firstHalf

/-- PriceDiscoveryService.calculateConfidence: 0.8 × min(dataPoints/maxPoints, 1),
rounded to 2 decimals. -/
def calculateConfidence (dataPoints maxPoints : ℕ) : ℚ :=
  let baseConfidence := min ((dataPoints : ℚ) / (maxPoints : ℚ)) 1
  round2 (baseConfidence * 0.8)

/-- PriceDiscoveryService.estimateFromHistoricalData: statistical estimation
from the 30-day series. -/
def estimateFromHistoricalData (now : ℤ) (historicalData : List HistoricalPrice) :
    EstimatedPrice :=
  let prices := historicalData.map (fun d => d.price)
  let average := meanQ prices
  let mn := listMin prices
  let mx := listMax prices
  let recentPrices := (historicalData.drop (historicalData.length - 7)).map
    (fun d => d.price)
  let trendMultiplier := calculateTrendMultiplier recentPrices
  let current := average * trendMultiplier
  { current := round2 current,
    minimum := round2 (mn * 0.9),
    maximum := round2 (mx * 1.1),
    average := round2 average,
    confidence := calculateConfidence historicalData.length 30,
    source := PriceSource.estimated,
    lastUpdated := now,
    estimationMethod := "historical_average_with_trend",
    historicalBasis := historicalData.map (fun d =>
      { date := d.date, price := d.price, volume := d.volume, source := "historical" }) }

/-- PriceDiscoveryService category table: categoryBasePrices with OR-default 50. -/
def categoryBasePrices (category : String) : ℚ :=
  if category = "vegetables" then 30
  else if category = "fruits" then 50
  else if category = "grains" then 25
  else if category = "pulses" then 80
  else if category = "spices" then 200
  else 50

/-- PriceDiscoveryService.estimateFromCategory: fixed per-category baseline with
±20% band, confidence 0.3, empty historical basis. -/
def estimateFromCategory (now : ℤ) (q : ProductQuery) : EstimatedPrice :=
  let basePrice := categoryBasePrices (strToLower q.category)
  { current := basePrice,
    minimum := basePrice * 0.8,
    maximum := basePrice * 1.2,
    average := basePrice,
    confidence := 0.3,
    source := PriceSource.estimated,
    lastUpdated := now,
    estimationMethod := "category_baseline",
    historicalBasis := [] }

/-- PriceDiscoveryService.estimatePrice: validate the query; with historical
data, try the AI estimator and fall back to the statistical estimate; with
none, try the AI estimator and fall back to the category baseline.
`aiResult` is the outcome of the aiService.estimatePriceWithAI call made on
the taken branch. -/
def estimatePrice (now : ℤ) (q : ProductQuery) (historicalData : List HistoricalPrice)
    (aiResult : Except String EstimatedPrice) : Except String EstimatedPrice :=
  if validateProductQuery q = false then Except.error ("Invalid product query")
  else if 0 < historicalData.length then
    match aiResult with
    | Except.ok e => Except.ok e
    | Except.error _ => Except.ok (estimateFromHistoricalData now historicalData)
  else
    match aiResult with
    | Except.ok e => Except.ok e
    | Except.error _ => Except.ok (estimateFromCategory now q)

/-- The PriceInfo built in getCurrentPrice from an estimatePrice result:
confidence scaled by 0.8, source estimated, lastUpdated set to now. -/
def estFallbackInfo (now : ℤ) (e : EstimatedPrice) : PriceInfo :=
  { current := e.current,
    minimum := e.minimum,
    maximum := e.maximum,
    average := e.average,
    confidence := e.confidence * 0.8,
    source := PriceSource.estimated,
    lastUpdated := now }

/-- The fetch-and-convert part of PriceDiscoveryService.getCurrentPrice (the
body after the short-term cache check): match a mandi record, use it when
the adapter freshness check passes, otherwise fall back to the estimate;
then format, validate and store in the short-term cache.  `freshOk` is the
configured adapter validateDataFreshness, `mandiPrices` the adapter fetch
result, `estimateResult` the outcome estimatePrice would produce. -/
def getCurrentPriceFetch (now : ℤ) (freshOk : MandiPrice → Bool) (cache : PriceCache)
    (q : ProductQuery) (mandiPrices : List MandiPrice)
    (estimateResult : Except String EstimatedPrice) :
    Except String (PriceInfo × PriceCache) :=
  let key := generateCacheKey q
  let matching := mandiPrices.find? (fun p => isProductMatch p.product q.name q.category)
  let infoE : Except String PriceInfo :=
    match matching with
    | some m =>
      if freshOk m then Except.ok (convertMandiPriceToPriceInfo m PriceSource.official)
      else estimateResult.map (estFallbackInfo now)
    | none => estimateResult.map (estFallbackInfo now)
  match infoE with
  | Except.error e => Except.error e
  | Except.ok info =>
    match formatPriceInfo info with
    | Except.error e => Except.error e
    | Except.ok formatted =>
      if validatePriceData now formatted then
        Except.ok (formatted, (key, formatted, now) :: cache)
      else Except.error ("Generated price data failed validation")

/-- PriceDiscoveryService.getCurrentPrice: validate the query, serve an
unexpired short-term cache entry, otherwise run the fetch path. -/
def getCurrentPrice (now : ℤ) (freshOk : MandiPrice → Bool) (cache : PriceCache)
    (q : ProductQuery) (mandiPrices : List MandiPrice)
    (estimateResult : Except String EstimatedPrice) :
    Except String (PriceInfo × PriceCache) :=
  if validateProductQuery q = false then Except.error ("Invalid product query")
  else
    match cacheFind cache (generateCacheKey q) with
    | some (d, ts) =>
      if now - ts < CACHE_TTL_MS then Except.ok (d, cache)
      else getCurrentPriceFetch now freshOk cache q mandiPrices estimateResult
    | none => getCurrentPriceFetch now freshOk cache q mandiPrices estimateResult

/-! ## Formula abbreviations used to state the claims -/

/-- The prices of a historical series. -/
def pricesOf (historicalData : List HistoricalPrice) : List ℚ :=
  historicalData.map (fun d => d.price)

/-- The prices of the last (up to) 7 entries of a historical series —
historicalData.slice(-7) mapped to prices. -/
def last7Prices (historicalData : List HistoricalPrice) : List ℚ :=
  (historicalData.drop (historicalData.length - 7)).map (fun d => d.price)

/-- Mean of the second half (from index ⌊n/2⌋ on) of a price list. -/
def secondHalfMean (l : List ℚ) : ℚ := meanQ (l.drop (l.length / 2))

/-- Mean of the first half (up to index ⌊n/2⌋) of a price list. -/
def firstHalfMean (l : List ℚ) : ℚ := meanQ (l.take (l.length / 2))

/-- The relative change compared by calculateTrend: (mean of the last 7
points − mean of the first 7 points) / (mean of the first 7 points). -/
def relChange (pricePoints : List PricePoint) : ℚ :=
  let recentAvg := meanQ ((pricePoints.drop (pricePoints.length - 7)).map (fun p => p.price))
  let olderAvg := meanQ ((pricePoints.take 7).map (fun p => p.price))
  (recentAvg - olderAvg) / olderAvg

/-! ## Concrete data used by counterexamples and witnesses -/

/-- The order invariant the spec states for every PriceInfo handed to a caller. -/
def priceBoundsOk (p : PriceInfo) : Prop :=
  p.minimum ≤ p.current ∧ p.current ≤ p.maximum ∧
  p.minimum ≤ p.average ∧ p.average ≤ p.maximum ∧
  0 ≤ p.confidence ∧ p.confidence ≤ 1

/-- A well-formed sample query (the spec §8 sample). -/
def sampleQuery : ProductQuery :=
  { name := "tomato", category := "vegetables", location := "delhi",
    quantity := 10, unit := "kg" }

/-- A verified mandi record observed at epoch time 0. -/
def sampleRecord : MandiPrice :=
  { product := "tomato", location := "delhi", price := 25, date := 0,
    source := "government_api", verified := true }

/-- A two-point historical series with a strong jump (prices 1 then 100). -/
def sampleHist : List HistoricalPrice :=
  [ { date := 0, price := 1, volume := 0, location := "delhi" },
    { date := 0, price := 100, volume := 0, location := "delhi" } ]

/-- A flat two-point price series. -/
def samplePoints : List PricePoint :=
  [ { date := 0, price := 10, volume := 0, source := "official" },
    { date := 1, price := 20, volume := 0, source := "official" } ]

/-- The PriceInfo getCurrentPrice produces from sampleRecord at time 0. -/
def samplePriceInfo : PriceInfo :=
  { current := 25, minimum := 95 / 4, maximum := 105 / 4, average := 25,
    confidence := 19 / 20, source := PriceSource.official, lastUpdated := 0 }

/-- A connected cache store holding one non-empty current-prices entry whose
single record is 7 hours old: basically fresh, but stale under the enhanced
market-hours rule. -/
def sampleCacheState : CacheState :=
  { connected := true,
    mandi := [(generateMandiPricesKey "delhi" "2024-01-15", [sampleRecord])],
    hist := [] }

/-! ## Theorems -/

/-- The sample query passes query validation. -/
theorem sampleQuery_valid : validateProductQuery sampleQuery = true := by
  simp only [validateProductQuery, Bool.and_eq_true, decide_eq_true_iff]
  repeat' apply And.intro
  all_goals first | decide | norm_num [sampleQuery]

/-- The sample record matches the sample query under isProductMatch. -/
theorem matchSample :
    isProductMatch sampleRecord.product sampleQuery.name sampleQuery.category = true := by
  decide

/-- Formatting the official conversion of the sample record yields
samplePriceInfo. -/
theorem formatSample :
    formatPriceInfo (convertMandiPriceToPriceInfo sampleRecord PriceSource.official) =
      Except.ok samplePriceInfo := by
  unfold convertMandiPriceToPriceInfo formatPriceInfo formatPrice formatConfidence
    sampleRecord samplePriceInfo
  norm_num [round2, jsRound]
  rfl

/-- samplePriceInfo passes validatePriceData at time 0. -/
theorem validateSample : validatePriceData 0 samplePriceInfo = true := by
  simp only [validatePriceData, samplePriceInfo, Bool.and_eq_true, decide_eq_true_iff]
  repeat' apply And.intro
  all_goals norm_num

/-- A concrete successful run of getCurrentPrice on an empty short-term cache:
the sample record is matched, converted, formatted, validated and cached. -/
theorem getCurrentPrice_sample :
    getCurrentPrice 0 (fun _ => true) [] sampleQuery [sampleRecord] (Except.error ("unused"))
      = Except.ok (samplePriceInfo, [(generateCacheKey sampleQuery, samplePriceInfo, 0)]) := by
  simp [getCurrentPrice, getCurrentPriceFetch, sampleQuery_valid, cacheFind, matchSample,
    formatSample, validateSample]

/-- A successful short-term cache lookup returns data stored in the cache. -/
theorem cacheFind_mem {c : PriceCache} {k : String} {v : PriceInfo × ℤ}
    (h : cacheFind c k = some v) : ∃ e ∈ c, e.2 = v := by
  unfold cacheFind at h
  obtain ⟨e, he, hev⟩ := Option.map_eq_some'.mp h
  exact ⟨e, List.mem_of_find?_eq_some he, hev⟩

/-- A PriceInfo accepted by validatePriceData satisfies the ordering and
confidence-range invariants. -/
theorem validatePriceData_bounds {now : ℤ} {p : PriceInfo}
    (h : validatePriceData now p = true) : priceBoundsOk p := by
  simp only [validatePriceData, Bool.and_eq_true, decide_eq_true_iff] at h
  refine ⟨?_, ?_, ?_, ?_, ?_, ?_⟩ <;> tauto

/-- Whenever the fetch path of getCurrentPrice succeeds, the returned PriceInfo
was validated, is a formatter output, and was prepended to the short-term
cache with the current timestamp. -/
theorem getCurrentPriceFetch_ok {now : ℤ} {freshOk : MandiPrice → Bool} {cache : PriceCache}
    {q : ProductQuery} {mandiPrices : List MandiPrice} {est : Except String EstimatedPrice}
    {p : PriceInfo} {c : PriceCache}
    (h : getCurrentPriceFetch now freshOk cache q mandiPrices est = Except.ok (p, c)) :
    validatePriceData now p = true ∧ (∃ info, formatPriceInfo info = Except.ok p) ∧
      c = (generateCacheKey q, p, now) :: cache := by
  simp only [getCurrentPriceFetch] at h
  split at h
  · exact absurd h (by simp)
  · rename_i info heq
    split at h
    · exact absurd h (by simp)
    · rename_i formatted heq2
      split at h
      · rename_i hv
        simp only [Except.ok.injEq, Prod.mk.injEq] at h
        obtain ⟨rfl, rfl⟩ := h
        exact ⟨hv, ⟨info, heq2⟩, rfl⟩
      · exact absurd h (by simp)

/-- The value of the statistical estimate on the sample series: the trend
multiplier is 100, so current (5050) far exceeds maximum (110). -/
theorem estSampleHist : estimateFromHistoricalData 0 sampleHist =
    { current := 5050, minimum := 9 / 10, maximum := 110, average := 101 / 2,
      confidence := 1 / 20, source := PriceSource.estimated, lastUpdated := 0,
      estimationMethod := "historical_average_with_trend",
      historicalBasis :=
        [ { date := 0, price := 1, volume := 0, source := "historical" },
          { date := 0, price := 100, volume := 0, source := "historical" } ] } := by
  unfold estimateFromHistoricalData sampleHist calculateTrendMultiplier calculateConfidence
    meanQ listMin listMax
  norm_num [round2, jsRound]

/-- Claim C6: the source client freshness predicate accepts a record exactly
when it is under 24 hours old, verified, and positively priced. -/
theorem claim_C6_basic_freshness (now : ℤ) (d : MandiPrice) :
    govValidateDataFreshness now d = true ↔
      (now - d.date < 24 * 60 * 60 * 1000 ∧ d.verified = true ∧ 0 < d.price) := by
  simp [govValidateDataFreshness, Bool.and_eq_true, decide_eq_true_iff, and_assoc]

/-- Claim C5: for a record that passes the basic freshness check, the enhanced
(orchestrator) check accepts it exactly when its age is below the
time-of-day-dependent bound: 6 hours when the local hour lies in 6..18,
12 hours otherwise. -/
theorem claim_C5_enhanced_freshness (now : ℤ) (hour : ℕ) (d : MandiPrice)
    (h : govValidateDataFreshness now d = true) :
    cachedValidateDataFreshness now hour d = true ↔
      now - d.date < (if 6 ≤ hour ∧ hour ≤ 18 then 6 * 60 * 60 * 1000
                      else 12 * 60 * 60 * 1000) := by
  simp [cachedValidateDataFreshness, h]

/-- Witness for C5 at a concrete record one hour old, during market hours. -/
theorem claim_C5_witness :
    cachedValidateDataFreshness 3600000 12 sampleRecord = true ↔
      (3600000 : ℤ) - sampleRecord.date <
        (if 6 ≤ (12 : ℕ) ∧ (12 : ℕ) ≤ 18 then 6 * 60 * 60 * 1000
         else 12 * 60 * 60 * 1000) :=
  claim_C5_enhanced_freshness 3600000 12 sampleRecord (by decide)

/-- Claim C1 (evaluation at the failing input): the cache holds a non-empty
entry whose record is basically fresh but stale under the enhanced check; the
source fails; yet the cached adapter returns the empty list and leaves the
store unchanged, because the government adapter converts the failure into an
empty array and the stale-cache catch block is never reached. -/
theorem claim_C1_code_eval :
    cacheGetMandi sampleCacheState (generateMandiPricesKey "delhi" "2024-01-15") =
        some [sampleRecord] ∧
      govValidateDataFreshness (7 * 60 * 60 * 1000) sampleRecord = true ∧
      cachedValidateDataFreshness (7 * 60 * 60 * 1000) 12 sampleRecord = false ∧
      cachedFetchMandiPrices (7 * 60 * 60 * 1000) 12 sampleCacheState
        "delhi" "2024-01-15" SourceResponse.failed = ([], sampleCacheState) := by
  refine ⟨by decide, by decide, by decide, by decide⟩

/-- The API tail of the current-prices read changes the store only by writing
the non-empty fetched list under the given key. -/
theorem mandiFetchPath_state (st : CacheState) (key location : String)
    (resp : SourceResponse MandiPrice) :
    (mandiFetchPath st key location resp).2 = st ∨
      (govFetchMandiPrices location resp ≠ [] ∧
        (mandiFetchPath st key location resp).2 =
          cacheSetMandi st key (govFetchMandiPrices location resp)) := by
  unfold mandiFetchPath
  by_cases h : 0 < (govFetchMandiPrices location resp).length
  · exact Or.inr ⟨by simpa [List.length_pos] using h, by simp [h]⟩
  · exact Or.inl (by simp [h])

/-- The API tail of the historical read changes the store only by writing the
non-empty fetched list under the given key. -/
theorem histFetchPath_state (st : CacheState) (key location : String)
    (resp : SourceResponse HistoricalPrice) :
    (histFetchPath st key location resp).2 = st ∨
      (govGetHistoricalData location resp ≠ [] ∧
        (histFetchPath st key location resp).2 =
          cacheSetHist st key (govGetHistoricalData location resp)) := by
  unfold histFetchPath
  by_cases h : 0 < (govGetHistoricalData location resp).length
  · exact Or.inr ⟨by simpa [List.length_pos] using h, by simp [h]⟩
  · exact Or.inl (by simp [h])

/-- Claim C10: both cached read paths leave the cache store untouched unless
the freshly fetched list is non-empty, in which case the only write is that
list under its derived key; an empty or failed fetch never overwrites an
existing entry. -/
theorem claim_C10_no_empty_write (now : ℤ) (hour : ℕ) (st : CacheState)
    (location dateStr product : String) (days : ℕ)
    (resp : SourceResponse MandiPrice) (respH : SourceResponse HistoricalPrice) :
    ((cachedFetchMandiPrices now hour st location dateStr resp).2 = st ∨
      (govFetchMandiPrices location resp ≠ [] ∧
        (cachedFetchMandiPrices now hour st location dateStr resp).2 =
          cacheSetMandi st (generateMandiPricesKey location dateStr)
            (govFetchMandiPrices location resp))) ∧
    ((cachedGetHistoricalData st product location days respH).2 = st ∨
      (govGetHistoricalData location respH ≠ [] ∧
        (cachedGetHistoricalData st product location days respH).2 =
          cacheSetHist st (generateHistoricalDataKey product location days)
            (govGetHistoricalData location respH))) := by
  constructor
  · rcases hm : cacheGetMandi st (generateMandiPricesKey location dateStr) with _ | cached
    · simpa [cachedFetchMandiPrices, hm] using
        mandiFetchPath_state st (generateMandiPricesKey location dateStr) location resp
    · by_cases h1 : 0 < cached.length
      · by_cases h2 :
          0 < (cached.filter (fun p => cachedValidateDataFreshness now hour p)).length
        · exact Or.inl (by simp [cachedFetchMandiPrices, hm, h1, h2])
        · simpa [cachedFetchMandiPrices, hm, h1, h2] using
            mandiFetchPath_state st (generateMandiPricesKey location dateStr) location resp
      · simpa [cachedFetchMandiPrices, hm, h1] using
          mandiFetchPath_state st (generateMandiPricesKey location dateStr) location resp
  · rcases hm : cacheGetHist st (generateHistoricalDataKey product location days) with _ | cached
    · simpa [cachedGetHistoricalData, hm] using
        histFetchPath_state st (generateHistoricalDataKey product location days) location respH
    · by_cases h1 : 0 < cached.length
      · exact Or.inl (by simp [cachedGetHistoricalData, hm, h1])
      · simpa [cachedGetHistoricalData, hm, h1] using
          histFetchPath_state st (generateHistoricalDataKey product location days) location respH

/-- Claim C4: with no historical data and a failed AI attempt, estimatePrice
returns the category-baseline estimate: the fixed per-category base price
with a ±20% band, confidence exactly 0.3, empty historical basis, and
estimation method tag category_baseline. -/
theorem claim_C4_category_baseline (q : ProductQuery) (now : ℤ) (msg : String)
    (hq : validateProductQuery q = true) :
    estimatePrice now q [] (Except.error msg) = Except.ok (estimateFromCategory now q) ∧
    (estimateFromCategory now q).confidence = 0.3 ∧
    (estimateFromCategory now q).historicalBasis = [] ∧
    (estimateFromCategory now q).estimationMethod = "category_baseline" ∧
    (estimateFromCategory now q).current = categoryBasePrices (strToLower q.category) ∧
    (estimateFromCategory now q).minimum =
      categoryBasePrices (strToLower q.category) * 0.8 ∧
    (estimateFromCategory now q).maximum =
      categoryBasePrices (strToLower q.category) * 1.2 := by
  refine ⟨?_, rfl, rfl, rfl, rfl, rfl, rfl⟩
  simp [estimatePrice, hq]

/-- Witness for C4 at the sample query. -/
theorem claim_C4_witness :
    estimatePrice 5 sampleQuery [] (Except.error ("ai down")) =
        Except.ok (estimateFromCategory 5 sampleQuery) ∧
      (estimateFromCategory 5 sampleQuery).confidence = 0.3 ∧
      (estimateFromCategory 5 sampleQuery).historicalBasis = [] ∧
      (estimateFromCategory 5 sampleQuery).estimationMethod = "category_baseline" ∧
      (estimateFromCategory 5 sampleQuery).current =
        categoryBasePrices (strToLower sampleQuery.category) ∧
      (estimateFromCategory 5 sampleQuery).minimum =
        categoryBasePrices (strToLower sampleQuery.category) * 0.8 ∧
      (estimateFromCategory 5 sampleQuery).maximum =
        categoryBasePrices (strToLower sampleQuery.category) * 1.2 :=
  claim_C4_category_baseline sampleQuery 5 ("ai down") sampleQuery_valid

/-- Claim C7: for a series of at least two points, the statistical estimate is
the 30-day mean scaled by the last-7 second-half/first-half mean quotient,
min/max are the observed extremes stretched by ∓10%, and confidence is
0.8 × min(dataPoints/30, 1) — each rounded to 2 decimals.  (With a single
point the code sets the trend multiplier to 1; the claimed quotient has an
empty first half there.) -/
theorem claim_C7_statistical_estimate (now : ℤ) (historicalData : List HistoricalPrice)
    (h2 : 2 ≤ historicalData.length) :
    (estimateFromHistoricalData now historicalData).current =
      round2 (meanQ (pricesOf historicalData) *
        (secondHalfMean (last7Prices historicalData) /
          firstHalfMean (last7Prices historicalData))) ∧
    (estimateFromHistoricalData now historicalData).minimum =
      round2 (listMin (pricesOf historicalData) * 0.9) ∧
    (estimateFromHistoricalData now historicalData).maximum =
      round2 (listMax (pricesOf historicalData) * 1.1) ∧
    (estimateFromHistoricalData now historicalData).confidence =
      round2 (min ((historicalData.length : ℚ) / 30) 1 * 0.8) := by
  have hlen : 2 ≤ (last7Prices historicalData).length := by
    unfold last7Prices
    rw [List.length_map, List.length_drop]
    omega
  have hmul : calculateTrendMultiplier (last7Prices historicalData) =
      secondHalfMean (last7Prices historicalData) /
        firstHalfMean (last7Prices historicalData) := by
    unfold calculateTrendMultiplier secondHalfMean firstHalfMean
    rw [if_neg (by omega)]
  refine ⟨?_, rfl, rfl, ?_⟩
  · have hc : (estimateFromHistoricalData now historicalData).current =
        round2 (meanQ (pricesOf historicalData) *
          calculateTrendMultiplier (last7Prices historicalData)) := rfl
    rw [hc, hmul]
  · simp [estimateFromHistoricalData, calculateConfidence]

/-- Witness for C7 at the two-point sample series. -/
theorem claim_C7_witness :
    (estimateFromHistoricalData 0 sampleHist).current =
        round2 (meanQ (pricesOf sampleHist) *
          (secondHalfMean (last7Prices sampleHist) /
            firstHalfMean (last7Prices sampleHist))) ∧
      (estimateFromHistoricalData 0 sampleHist).minimum =
        round2 (listMin (pricesOf sampleHist) * 0.9) ∧
      (estimateFromHistoricalData 0 sampleHist).maximum =
        round2 (listMax (pricesOf sampleHist) * 1.1) ∧
      (estimateFromHistoricalData 0 sampleHist).confidence =
        round2 (min ((sampleHist.length : ℚ) / 30) 1 * 0.8) :=
  claim_C7_statistical_estimate 0 sampleHist (by decide)

/-- Claim C8: for a series of at least two points, the trend is rising exactly
when the relative change between the last-7 and first-7 means exceeds +5%,
falling exactly when it is below −5%, and stable otherwise. -/
theorem claim_C8_trend (pricePoints : List PricePoint) (h2 : 2 ≤ pricePoints.length) :
    (calculateTrend pricePoints = Trend.rising ↔ 0.05 < relChange pricePoints) ∧
    (calculateTrend pricePoints = Trend.falling ↔ relChange pricePoints < -0.05) ∧
    (calculateTrend pricePoints = Trend.stable ↔
      (¬0.05 < relChange pricePoints ∧ ¬relChange pricePoints < -0.05)) := by
  have hcal : calculateTrend pricePoints =
      (if 0.05 < relChange pricePoints then Trend.rising
       else if relChange pricePoints < -0.05 then Trend.falling
       else Trend.stable) := by
    unfold calculateTrend relChange
    rw [if_neg (by omega)]
  rw [hcal]
  by_cases hr : 0.05 < relChange pricePoints
  · have hnf : ¬relChange pricePoints < -0.05 := by linarith
    simp [hr, hnf]
  · by_cases hf : relChange pricePoints < -0.05
    · simp [hr, hf]
    · simp [hr, hf]

/-- Witness for C8 at the two-point sample series. -/
theorem claim_C8_witness :
    (calculateTrend samplePoints = Trend.rising ↔ 0.05 < relChange samplePoints) ∧
      (calculateTrend samplePoints = Trend.falling ↔ relChange samplePoints < -0.05) ∧
      (calculateTrend samplePoints = Trend.stable ↔
        (¬0.05 < relChange samplePoints ∧ ¬relChange samplePoints < -0.05)) :=
  claim_C8_trend samplePoints (by decide)

/-- Claim C2: for a query that passes validation, every PriceInfo that
getCurrentPrice returns (rather than raising) satisfies
minimum ≤ current ≤ maximum, minimum ≤ average ≤ maximum and
confidence ∈ [0,1].  The hypothesis on the short-term cache is the
invariant the function itself maintains: every stored entry was validated
before being cached, and the cache starts empty. -/
theorem claim_C2_price_bounds {now : ℤ} {freshOk : MandiPrice → Bool} {cache : PriceCache}
    {q : ProductQuery} {mandiPrices : List MandiPrice} {est : Except String EstimatedPrice}
    {p : PriceInfo} {c2 : PriceCache}
    (hq : validateProductQuery q = true)
    (hc : ∀ e ∈ cache, priceBoundsOk e.2.1)
    (h : getCurrentPrice now freshOk cache q mandiPrices est = Except.ok (p, c2)) :
    priceBoundsOk p := by
  rw [getCurrentPrice, if_neg (by simp [hq])] at h
  rcases hf : cacheFind cache (generateCacheKey q) with _ | ⟨d, ts⟩
  · simp only [hf] at h
    exact validatePriceData_bounds (getCurrentPriceFetch_ok h).1
  · simp only [hf] at h
    split at h
    · simp only [Except.ok.injEq, Prod.mk.injEq] at h
      obtain ⟨rfl, rfl⟩ := h
      obtain ⟨e, hmem, he2⟩ := cacheFind_mem hf
      have hb := hc e hmem
      rw [he2] at hb
      exact hb
    · exact validatePriceData_bounds (getCurrentPriceFetch_ok h).1

/-- Witness for C2 at the sample run. -/
theorem claim_C2_witness : priceBoundsOk samplePriceInfo :=
  claim_C2_price_bounds sampleQuery_valid (by simp) getCurrentPrice_sample

/-- Counterexample to C3: estimatePrice hands the statistical estimate straight
back to the caller; on the sample series the returned EstimatedPrice has
current 5050 above maximum 110 and is rejected by validatePriceData, so no
format-and-validate step guards this public return. -/
theorem claim_C3_counterexample :
    estimatePrice 0 sampleQuery sampleHist (Except.error ("ai down")) =
        Except.ok (estimateFromHistoricalData 0 sampleHist) ∧
      (estimateFromHistoricalData 0 sampleHist).maximum <
        (estimateFromHistoricalData 0 sampleHist).current ∧
      validatePriceData 0 (estimateFromHistoricalData 0 sampleHist).toPriceInfo = false := by
  refine ⟨by simp [estimatePrice, sampleQuery_valid, sampleHist], ?_, ?_⟩
  · rw [estSampleHist]; norm_num
  · rw [Bool.eq_false_iff]
    intro hcontra
    simp only [validatePriceData, Bool.and_eq_true, decide_eq_true_iff] at hcontra
    have h9 : (estimateFromHistoricalData 0 sampleHist).toPriceInfo.current ≤
        (estimateFromHistoricalData 0 sampleHist).toPriceInfo.maximum := by tauto
    rw [estSampleHist] at h9
    norm_num [EstimatedPrice.toPriceInfo] at h9

/-- Claim C3 as amended: only getCurrentPrice applies the formatter and
validatePriceData immediately before returning (here states for the
fetch path, i.e. whenever the short-term cache misses): any PriceInfo it
returns is a formatter output accepted by validatePriceData.  estimatePrice
has no such final step (see the counterexample). -/
theorem claim_C3_amended_validation {now : ℤ} {freshOk : MandiPrice → Bool}
    {cache : PriceCache} {q : ProductQuery} {mandiPrices : List MandiPrice}
    {est : Except String EstimatedPrice} {p : PriceInfo} {c2 : PriceCache}
    (h0 : cacheFind cache (generateCacheKey q) = none)
    (h : getCurrentPrice now freshOk cache q mandiPrices est = Except.ok (p, c2)) :
    (∃ info, formatPriceInfo info = Except.ok p) ∧ validatePriceData now p = true := by
  rw [getCurrentPrice] at h
  split at h
  · exact absurd h (by simp)
  · simp only [h0] at h
    obtain ⟨hv, hex, -⟩ := getCurrentPriceFetch_ok h
    exact ⟨hex, hv⟩

/-- Witness for the amended C3 at the sample run. -/
theorem claim_C3_witness :
    (∃ info, formatPriceInfo info = Except.ok samplePriceInfo) ∧
      validatePriceData 0 samplePriceInfo = true :=
  @claim_C3_amended_validation 0 (fun _ => true) [] sampleQuery [sampleRecord]
    (Except.error ("unused")) samplePriceInfo
    [(generateCacheKey sampleQuery, samplePriceInfo, 0)] rfl getCurrentPrice_sample

/-- Claim C9: after a getCurrentPrice call that missed the short-term cache and
succeeded, any second call for the same query within the 5-minute TTL
returns the identical PriceInfo (lastUpdated included) and the identical
cache — regardless of what the adapter or estimator would deliver now. -/
theorem claim_C9_idempotent
    (t1 t2 : ℤ) (freshOk freshOk2 : MandiPrice → Bool) (cache : PriceCache)
    (q : ProductQuery) (mp mp2 : List MandiPrice) (est est2 : Except String EstimatedPrice)
    (p : PriceInfo) (c1 : PriceCache)
    (h0 : cacheFind cache (generateCacheKey q) = none)
    (h1 : getCurrentPrice t1 freshOk cache q mp est = Except.ok (p, c1))
    (ht : t2 - t1 < CACHE_TTL_MS) :
    getCurrentPrice t2 freshOk2 c1 q mp2 est2 = Except.ok (p, c1) := by
  have hqv : validateProductQuery q = true := by
    by_cases hv : validateProductQuery q = true
    · exact hv
    · have hfalse : validateProductQuery q = false := by
        revert hv; cases validateProductQuery q <;> simp
      rw [getCurrentPrice, if_pos hfalse] at h1
      exact absurd h1 (by simp)
  have h1f : getCurrentPriceFetch t1 freshOk cache q mp est = Except.ok (p, c1) := by
    rw [getCurrentPrice, if_neg (by simp [hqv])] at h1
    simpa only [h0] using h1
  obtain ⟨hv, hex, hc1⟩ := getCurrentPriceFetch_ok h1f
  subst hc1
  rw [getCurrentPrice, if_neg (by simp [hqv])]
  have hfind : cacheFind ((generateCacheKey q, p, t1) :: cache) (generateCacheKey q)
      = some (p, t1) := by
    simp [cacheFind, List.find?]
  simp only [hfind]
  rw [if_pos ht]

/-- Witness for C9: a second call one second later, even with an empty adapter
result and a failing estimator, repeats the first result verbatim. -/
theorem claim_C9_witness :
    getCurrentPrice 1000 (fun _ => true)
        [(generateCacheKey sampleQuery, samplePriceInfo, 0)] sampleQuery []
        (Except.error ("down")) =
      Except.ok (samplePriceInfo, [(generateCacheKey sampleQuery, samplePriceInfo, 0)]) :=
  claim_C9_idempotent 0 1000 (fun _ => true) (fun _ => true) [] sampleQuery [sampleRecord]
    [] (Except.error ("unused")) (Except.error ("down")) samplePriceInfo
    [(generateCacheKey sampleQuery, samplePriceInfo, 0)] rfl getCurrentPrice_sample
    (by decide)

end Mandi
